import Mathlib

/-!
# Verification of the AaravPOS print-relay agent

Shallow embedding of the print-relay service found in this repository, in
its two revisions:

* `src/print-server.js` (embedded below under namespace `PrintServerJS`);
* `src/unnamed/part_001`, the "macOS OPTIMIZED VERSION" of the same file
  (embedded under namespace `PrintServerMac`).

JavaScript strings are modelled as lists of UTF-16 code units
(`List Nat`, each element intended `< 0x10000`); byte buffers are lists
of byte values (`List Nat`, each `< 0x100`).  Host-OS effects (`exec`
callbacks, file writes, the regular-expression engine) are supplied as
explicit inputs, so every operation is a total function of its inputs.
-/

namespace AaravPos

/-! ## JS string encodings

`Buffer.from(text, enc)` for the two encodings the repository uses.
-/

/-- A UTF-16 code unit in the high-surrogate range `0xD800..0xDBFF`. -/
def isHighSurrogate (u : Nat) : Bool := decide (0xD800 ≤ u ∧ u < 0xDC00)

/-- A UTF-16 code unit in the low-surrogate range `0xDC00..0xDFFF`. -/
def isLowSurrogate (u : Nat) : Bool := decide (0xDC00 ≤ u ∧ u < 0xE000)

/-- Node's `'ascii'` (= `'latin1'`) string encoder: each UTF-16 code unit
is truncated to its low byte.  This models `Buffer.from(text, 'ascii')`
in `src/print-server.js` `buildBuffer`. -/
def asciiEncode (text : List Nat) : List Nat := text.map (· % 256)

/-- Standard UTF-8 encoding of one Unicode scalar value (1–4 bytes). -/
def utf8EncodeScalar (c : Nat) : List Nat :=
  if c < 0x80 then [c]
  else if c < 0x800 then [0xC0 + c / 0x40, 0x80 + c % 0x40]
  else if c < 0x10000 then
    [0xE0 + c / 0x1000, 0x80 + c / 0x40 % 0x40, 0x80 + c % 0x40]
  else
    [0xF0 + c / 0x40000, 0x80 + c / 0x1000 % 0x40, 0x80 + c / 0x40 % 0x40,
      0x80 + c % 0x40]

/-- UTF-8 bytes of a single UTF-16 code unit taken alone: a lone
surrogate becomes U+FFFD, anything else encodes as itself. -/
def utf8EncodeUnit (u : Nat) : List Nat :=
  if isHighSurrogate u || isLowSurrogate u then utf8EncodeScalar 0xFFFD
  else utf8EncodeScalar u

/-- Node's `'utf8'` string encoder on a UTF-16 code-unit sequence: a
well-formed surrogate pair is combined into one scalar ≥ `0x10000`; a
lone surrogate is replaced by U+FFFD.  This models
`Buffer.from(text, 'utf8')` in `src/unnamed/part_001` `buildBuffer`. -/
def utf8Encode : List Nat → List Nat
  | [] => []
  | [u] => utf8EncodeUnit u
  | u :: v :: rest =>
    if isHighSurrogate u && isLowSurrogate v then
      utf8EncodeScalar (0x10000 + (u - 0xD800) * 0x400 + (v - 0xDC00)) ++
        utf8Encode rest
    else utf8EncodeUnit u ++ utf8Encode (v :: rest)

/-- UTF-16 code-unit sequence of one Unicode scalar value. -/
def utf16OfScalar (c : Nat) : List Nat :=
  if c < 0x10000 then [c]
  else [0xD800 + (c - 0x10000) / 0x400, 0xDC00 + (c - 0x10000) % 0x400]

/-- Standard UTF-8 decoder (back to UTF-16 code units), total on all byte
lists; on the well-formed encodings produced by `utf8Encode` it is exact.
Used only to state the round-trip property of the `'utf8'` encoding. -/
def utf8Decode (l : List Nat) : List Nat :=
  match l with
  | [] => []
  | b :: bs =>
    if b < 0x80 then b :: utf8Decode bs
    else if b < 0xE0 then
      if bs.length < 1 then [0xFFFD]
      else ((b - 0xC0) * 0x40 + (bs.getD 0 0 - 0x80)) ::
        utf8Decode (bs.drop 1)
    else if b < 0xF0 then
      if bs.length < 2 then [0xFFFD]
      else ((b - 0xE0) * 0x1000 + (bs.getD 0 0 - 0x80) * 0x40 +
        (bs.getD 1 0 - 0x80)) :: utf8Decode (bs.drop 2)
    else
      if bs.length < 3 then [0xFFFD]
      else utf16OfScalar ((b - 0xF0) * 0x40000 +
        (bs.getD 0 0 - 0x80) * 0x1000 + (bs.getD 1 0 - 0x80) * 0x40 +
        (bs.getD 2 0 - 0x80)) ++ utf8Decode (bs.drop 3)
termination_by l.length
decreasing_by all_goals (simp; try omega)

/-- Well-formed UTF-16: every code unit is below `0x10000` and surrogates
occur only as high-low pairs (this is exactly the class of JS strings that
contain no lone surrogate). -/
def wfUtf16 : List Nat → Bool
  | [] => true
  | [u] => decide (u < 0x10000) && !isHighSurrogate u && !isLowSurrogate u
  | u :: v :: rest =>
    if isHighSurrogate u then isLowSurrogate v && wfUtf16 rest
    else decide (u < 0x10000) && !isLowSurrogate u && wfUtf16 (v :: rest)

/-! ## ESC/POS constants (identical in both revisions) -/

/-- Source: `const ESC = 0x1B`. -/
def ESC : Nat := 0x1B

/-- Source: `const LF = 0x0A`. -/
def LF : Nat := 0x0A

/-- Source: `DRAWER_KICK = Buffer.from([ESC, 0x70, 0x00, 0x19, 0xFA])`. -/
def DRAWER_KICK : List Nat := [ESC, 0x70, 0x00, 0x19, 0xFA]

/-- Source: `FEED_AND_CUT = Buffer.from([LF, LF, LF, LF, ESC, 0x69])`. -/
def FEED_AND_CUT : List Nat := [LF, LF, LF, LF, ESC, 0x69]

namespace PrintServerJS

/-- Function `buildBuffer(text, openDrawer)` from `src/print-server.js` lines
30–47: parts = text encoded with `'ascii'`, two line feeds, optionally
the drawer kick, then the feed-and-cut trailer; `Buffer.concat(parts)`. -/
def buildBuffer (text : List Nat) (openDrawer : Bool) : List Nat :=
  List.flatten
    ([asciiEncode text, [LF, LF]] ++
      (if openDrawer then [DRAWER_KICK] else []) ++ [FEED_AND_CUT])

end PrintServerJS

namespace PrintServerMac

/-- Function `buildBuffer(text, openDrawer)` from `src/unnamed/part_001` lines
44–61: identical to the `src/print-server.js` version except the text is
encoded with `'utf8'` ("Changed to utf8 for better character support"). -/
def buildBuffer (text : List Nat) (openDrawer : Bool) : List Nat :=
  List.flatten
    ([utf8Encode text, [LF, LF]] ++
      (if openDrawer then [DRAWER_KICK] else []) ++ [FEED_AND_CUT])

end PrintServerMac

/-- The bytes `buildBuffer` appends after the encoded text when
`openDrawer` is false: two line feeds followed by the feed-and-cut
trailer. -/
def PLAIN_TAIL : List Nat := [LF, LF] ++ FEED_AND_CUT

/-! ## Host-OS model

`os.platform()`, `exec` callbacks and file writes are inputs.
-/

/-- The value of `os.platform()`. -/
inductive Platform where
  | darwin
  | linux
  | win32
  | other
deriving DecidableEq

/-- Outcome of one `exec` invocation, as seen by its callback:
`error` is `some message` when the command failed (non-zero exit, spawn
failure, or kill by timeout), and `stdout` is the captured output. -/
structure ExecResult where
  error : Option String
  stdout : String
deriving DecidableEq

/-- The options object passed to `exec` (`{}` when the call passes no
options, in which case Node applies no timeout). -/
structure ExecOptions where
  timeout : Option Nat
deriving DecidableEq

/-- A fully-formed `exec` invocation: the shell command string and its
options. -/
structure ExecCall where
  command : String
  options : ExecOptions
deriving DecidableEq

/-! ## JS string helpers (modelled on `String.data`) -/

/-- JS `s.split(sep)` for a single-character separator. -/
def jsSplit (sep : Char) (s : String) : List String :=
  (s.data.splitOn sep).map String.mk

/-- JS `s.startsWith(pre)`. -/
def jsStartsWith (pre s : String) : Bool := pre.data.isPrefixOf s.data

/-- JS `s.includes(needle)` (substring containment). -/
def jsIncludes (needle s : String) : Bool :=
  decide (needle.data <:+: s.data)

/-- JS `s.trim()`. -/
def jsTrim (s : String) : String :=
  String.mk
    (((s.data.dropWhile Char.isWhitespace).reverse.dropWhile
      Char.isWhitespace).reverse)

/-- JS `s.toUpperCase()` (ASCII portion). -/
def jsToUpper (s : String) : String := String.mk (s.data.map Char.toUpper)

/-- JS string interpolation of a possibly-`undefined` value. -/
def jsShow (o : Option String) : String := o.getD "undefined"

/-- JS `s.replace(/\\/g, '\\\\')`: double every backslash. -/
def jsEscapeBackslashes (s : String) : String :=
  String.mk (s.data.flatMap fun c => if c = '\\' then ['\\', '\\'] else [c])

/-! ## Transient print files (`printRaw`, both revisions)

`const tempFile = path.join(tempDir, ``aaravpos-${Date.now()}.raw``)`.
-/

/-- Decimal digit characters of a natural number, most significant
first — the model of JS number-to-string interpolation for the integer
`Date.now()`. -/
def natToDigits (n : Nat) : List Char :=
  if n < 10 then [Char.ofNat (48 + n)]
  else natToDigits (n / 10) ++ [Char.ofNat (48 + n % 10)]
termination_by n
decreasing_by omega

/-- Inverse of `natToDigits`, used to prove it injective. -/
def digitsToNat (l : List Char) : Nat :=
  l.foldl (fun acc c => acc * 10 + (c.toNat - 48)) 0

/-- The transient file path `printRaw` writes: `tempDir`, a path
separator, then `aaravpos-`, the decimal `Date.now()` value, and
`.raw`. -/
def tempFile (tempDir : String) (now : Nat) : String :=
  tempDir ++ "/" ++ ("aaravpos-" ++ String.mk (natToDigits now) ++ ".raw")

/-- One invocation of the raw-print router: the millisecond clock value
`Date.now()` read at entry, plus the arguments that distinguish the
request.  The transient file name depends only on `now`. -/
structure PrintJob where
  now : Nat
  printerName : String
  buffer : List Nat
deriving DecidableEq

/-- The transient file used by a given print-router invocation. -/
def printJobTempFile (tempDir : String) (j : PrintJob) : String :=
  tempFile tempDir j.now

/-! ## Service lifecycle (identical in both revisions)

`constructor` sets `this.wss = null`; `start()` assigns a listening
`WebSocket.Server` to `this.wss`; `stop()` calls `this.wss.close(...)`
but never reassigns the field; `getStatus()` reports
`isRunning: this.wss !== null`.
-/

/-- The `WebSocket.Server` object held in `this.wss`: `accepting` is the
live listener state, turned off by `close()`. -/
structure WSServer where
  accepting : Bool
deriving DecidableEq

/-- The mutable state of a `PrintServer` instance (the `this.wss`
field; `null` is `none`). -/
structure PrintServerState where
  wss : Option WSServer
deriving DecidableEq

/-- Constructor `new PrintServer()`: `this.wss = null`. -/
def initServer : PrintServerState := ⟨none⟩

/-- Method `start()` on the bind-success path: `this.wss = new
WebSocket.Server({...})`, which is accepting once `listening` fires. -/
def startServer (_s : PrintServerState) : PrintServerState := ⟨some ⟨true⟩⟩

/-- Method `stop()`: when `this.wss` is set, `this.wss.close(cb)` closes the
listener and the promise resolves from `cb`; the `wss` field itself is
never cleared.  When `this.wss` is `null` it resolves immediately. -/
def stopServer (s : PrintServerState) : PrintServerState :=
  match s.wss with
  | some _ => ⟨some ⟨false⟩⟩
  | none => s

/-- Source: `this.PORT = 9978`. -/
def PORT : Nat := 9978

/-- The fields of the object returned by `getStatus()` that the claims
mention. -/
structure ServiceStatus where
  isRunning : Bool
  port : Nat
deriving DecidableEq

/-- Method `getStatus()`: `isRunning: this.wss !== null`. -/
def getStatus (s : PrintServerState) : ServiceStatus :=
  ⟨s.wss.isSome, PORT⟩

/-! ## Printer discovery -/

/-- One printer object pushed by discovery.  `isConnected` is an
`Option` because one code path builds the object without that field
(an absent JS property is `none`). -/
structure PrinterInfo where
  name : String
  isDefault : Bool
  status : String
  isConnected : Option Bool
deriving DecidableEq

/-- The list a discovery promise delivers (`[]` when it rejected —
callers that `catch` use this). -/
def printersOf : Except String (List PrinterInfo) → List PrinterInfo
  | .ok l => l
  | .error _ => []

/-- The `defaultPrinter` variable both revisions compute from the
`lpstat -d` callback: stays `null` unless the command succeeded with
non-empty output and the regular expression
`/system default destination:\s*(\S+)/i` matched; `defMatch` is the
captured group delivered by the regex engine on that output. -/
def defaultPrinterOf (defRes : ExecResult) (defMatch : Option String) :
    Option String :=
  if defRes.error = none ∧ defRes.stdout ≠ "" then defMatch else none

namespace PrintServerJS

/-- One line of the POSIX `lpstat -p -d` parse in `src/print-server.js`
lines 173–182: lines starting with `printer ` yield an object with
`name` (second space-delimited token), `isDefault` (exact match against
the default destination) and `status` (`READY` iff the line mentions
`enabled`).  No `isConnected` property is set on this path. -/
def parsePosixLine (defaultPrinter : Option String) (line : String) :
    Option PrinterInfo :=
  if jsStartsWith "printer " line then
    let name := (jsSplit ' ' line).getD 1 ""
    some
      { name := name
        isDefault := decide (defaultPrinter = some name)
        status := if jsIncludes "enabled" line then "READY" else "OFFLINE"
        isConnected := none }
  else none

/-- One CSV line of the Windows `wmic` parse in `src/print-server.js`
lines 135–155: blank lines and short lines are skipped, field 1 is the
default flag, fields 2.. joined by commas are the name, empty names are
skipped; the object always gets `status: 'READY', isConnected: true`. -/
def parseWindowsCSVLine (line : String) : Option PrinterInfo :=
  if jsTrim line = "" then none
  else if (jsSplit ',' line).length < 3 then none
  else if jsTrim (String.intercalate "," ((jsSplit ',' line).drop 2)) = ""
    then none
  else some
    { name := jsTrim (String.intercalate "," ((jsSplit ',' line).drop 2))
      isDefault :=
        jsToUpper (jsTrim ((jsSplit ',' line).getD 1 "")) = "TRUE"
      status := "READY"
      isConnected := some true }

/-- Method `getPrinters()` from `src/print-server.js` lines 98–193.  Oracles:
`listRes` is the outer `exec` result, `csvRes` the Windows CSV re-query,
`defRes`/`defMatch` the `lpstat -d` lookup and its regex match.  Every
failure path calls `resolve` (never `reject`), so the result is modelled
as an `Except` that the theorems show is always `ok`. -/
def getPrinters (platform : Platform) (listRes csvRes defRes : ExecResult)
    (defMatch : Option String) : Except String (List PrinterInfo) :=
  match platform with
  | .other => .ok []
  | .win32 =>
    match listRes.error with
    | some _ => .ok []
    | none =>
      match csvRes.error with
      | some _ => .ok []
      | none =>
        .ok (((jsSplit '\n' csvRes.stdout).drop 1).filterMap
          parseWindowsCSVLine)
  | .darwin | .linux =>
    match listRes.error with
    | some _ => .ok []
    | none =>
      .ok ((jsSplit '\n' listRes.stdout).filterMap
        (parsePosixLine (defaultPrinterOf defRes defMatch)))

/-- The spool command `printRaw` runs in `src/print-server.js` lines
64–77, with the `exec` options it is given: `lp -d ... -o raw` on
POSIX, `copy /b` to a share on Windows; **no options object is passed
to `exec`**, so no timeout applies.  `none` is the unsupported-platform
path, which rejects before any command runs. -/
def printRawCommand (platform : Platform) (printerName tf : String) :
    Option ExecCall :=
  match platform with
  | .darwin =>
    some ⟨"lp -d \"" ++ printerName ++ "\" -o raw \"" ++ tf ++ "\"", ⟨none⟩⟩
  | .linux =>
    some ⟨"lp -d \"" ++ printerName ++ "\" -o raw \"" ++ tf ++ "\"", ⟨none⟩⟩
  | .win32 =>
    some ⟨"copy /b \"" ++ jsEscapeBackslashes tf ++ "\" \"\\\\localhost\\" ++
      jsEscapeBackslashes printerName ++ "\"", ⟨none⟩⟩
  | .other => none

/-- Method `printRaw(printerName, buffer)` outcome from `src/print-server.js`
lines 52–93: reject on temp-file write failure, reject on unsupported
platform, reject when the spool command errors, otherwise resolve with
its stdout. -/
def printRaw (platform : Platform) (printerName : String)
    (writeErr : Option String) (res : ExecResult) : Except String String :=
  match writeErr with
  | some e => .error e
  | none =>
    match printRawCommand platform printerName "" with
    | none => .error "Unsupported platform"
    | some _ =>
      match res.error with
      | some e => .error e
      | none => .ok res.stdout

end PrintServerJS

namespace PrintServerMac

/-- One line of the macOS `lpstat -p` parse in `src/unnamed/part_001`
lines 179–202: `READY` when the line mentions idle or enabled, else
`OFFLINE` when it mentions disabled, else `PRINTING` when it mentions
printing, else `OFFLINE`; `isConnected: status !== 'OFFLINE'`. -/
def parseMacLine (defaultPrinter : Option String) (line : String) :
    Option PrinterInfo :=
  if jsStartsWith "printer " line then
    let name := (jsSplit ' ' line).getD 1 ""
    let status :=
      if jsIncludes "idle" line || jsIncludes "enabled" line then "READY"
      else if jsIncludes "disabled" line then "OFFLINE"
      else if jsIncludes "printing" line then "PRINTING"
      else "OFFLINE"
    some
      { name := name
        isDefault := decide (defaultPrinter = some name)
        status := status
        isConnected := some (status != "OFFLINE") }
  else none

/-- One line of the Linux `lpstat -p` parse in `src/unnamed/part_001`
lines 228–245: `READY` when the line mentions idle or enabled, else
`OFFLINE`; `isConnected: status !== 'OFFLINE'`. -/
def parseLinuxLine (defaultPrinter : Option String) (line : String) :
    Option PrinterInfo :=
  if jsStartsWith "printer " line then
    let name := (jsSplit ' ' line).getD 1 ""
    let status :=
      if jsIncludes "idle" line || jsIncludes "enabled" line then "READY"
      else "OFFLINE"
    some
      { name := name
        isDefault := decide (defaultPrinter = some name)
        status := status
        isConnected := some (status != "OFFLINE") }
  else none

/-- Method `getMacOSPrinters()` from `src/unnamed/part_001` lines 159–209:
rejects when `lpstat -p` errors, otherwise resolves the parsed lines. -/
def getMacOSPrinters (defRes listRes : ExecResult)
    (defMatch : Option String) : Except String (List PrinterInfo) :=
  match listRes.error with
  | some e => .error e
  | none =>
    .ok ((jsSplit '\n' listRes.stdout).filterMap
      (parseMacLine (defaultPrinterOf defRes defMatch)))

/-- Method `getLinuxPrinters()` from `src/unnamed/part_001` lines 211–251. -/
def getLinuxPrinters (defRes listRes : ExecResult)
    (defMatch : Option String) : Except String (List PrinterInfo) :=
  match listRes.error with
  | some e => .error e
  | none =>
    .ok ((jsSplit '\n' listRes.stdout).filterMap
      (parseLinuxLine (defaultPrinterOf defRes defMatch)))

/-- One entry of the PowerShell `Get-Printer | ConvertTo-Json` output
(`Name` and `Default` after JS truthiness coercion). -/
structure WinEntry where
  Name : String
  Default : Bool
deriving DecidableEq

/-- What `JSON.parse(stdout.trim())` delivered: a parse exception, an
array, or a single object (coerced to a one-element array). -/
inductive PSJsonResult where
  | parseError
  | arr (items : List WinEntry)
  | obj (o : WinEntry)
deriving DecidableEq

/-- Method `getWindowsPrinters()` from `src/unnamed/part_001` lines 253–280:
resolves `[]` on command error or empty output or JSON-parse failure,
otherwise maps each entry to `status: 'READY', isConnected: true`.
This path never rejects. -/
def getWindowsPrinters (res : ExecResult) (parsed : PSJsonResult) :
    Except String (List PrinterInfo) :=
  if res.error ≠ none ∨ res.stdout = "" then .ok []
  else
    match parsed with
    | .parseError => .ok []
    | .arr items =>
      .ok (items.map fun p =>
        { name := p.Name, isDefault := p.Default, status := "READY",
          isConnected := some true })
    | .obj o =>
      .ok ([o].map fun p =>
        { name := p.Name, isDefault := p.Default, status := "READY",
          isConnected := some true })

/-- Method `getPrinters()` from `src/unnamed/part_001` lines 127–157: dispatch
per platform, `catch` every per-platform rejection into `resolve([])`,
and resolve `[]` outright on unknown platforms. -/
def getPrinters (platform : Platform) (defRes listRes : ExecResult)
    (defMatch : Option String) (winRes : ExecResult)
    (winParsed : PSJsonResult) : Except String (List PrinterInfo) :=
  match platform with
  | .darwin =>
    match getMacOSPrinters defRes listRes defMatch with
    | .error _ => .ok []
    | .ok l => .ok l
  | .linux =>
    match getLinuxPrinters defRes listRes defMatch with
    | .error _ => .ok []
    | .ok l => .ok l
  | .win32 =>
    match getWindowsPrinters winRes winParsed with
    | .error _ => .ok []
    | .ok l => .ok l
  | .other => .ok []

/-- The spool command `printRaw` runs in `src/unnamed/part_001` lines
79–102, with its `exec` options: `lpr -P ... -o raw` on macOS,
`lp -d ... -o raw` on Linux, `copy /b` on Windows — every call passes
`{ timeout: 10000 }`. -/
def printRawCommand (platform : Platform) (printerName tf : String) :
    Option ExecCall :=
  match platform with
  | .darwin =>
    some ⟨"lpr -P \"" ++ printerName ++ "\" -o raw \"" ++ tf ++ "\"",
      ⟨some 10000⟩⟩
  | .linux =>
    some ⟨"lp -d \"" ++ printerName ++ "\" -o raw \"" ++ tf ++ "\"",
      ⟨some 10000⟩⟩
  | .win32 =>
    some ⟨"copy /b \"" ++ jsEscapeBackslashes tf ++ "\" \"\\\\localhost\\" ++
      jsEscapeBackslashes printerName ++ "\"", ⟨some 10000⟩⟩
  | .other => none

/-- Method `printRaw(printerName, buffer)` outcome from `src/unnamed/part_001`
lines 66–122: reject on write failure, reject on unsupported platform,
reject when the (timeout-bounded) command reports an error — a kill by
the 10000 ms timeout reaches the callback as an error — otherwise
resolve with stdout. -/
def printRaw (platform : Platform) (printerName : String)
    (writeErr : Option String) (res : ExecResult) : Except String String :=
  match writeErr with
  | some e => .error e
  | none =>
    match printRawCommand platform printerName "" with
    | none => .error "Unsupported platform"
    | some _ =>
      match res.error with
      | some e => .error e
      | none => .ok res.stdout

end PrintServerMac

/-! ## Connection gate and command dispatcher

Model of the `connection`/`message` handlers installed by `start()` in
`src/print-server.js` lines 206–354 (`src/unnamed/part_001` lines
295–456 are identical in structure).  Oracles: the printer list a
`health` command would obtain (always delivered, by C4) and the
`printRaw` outcome for a routed job.
-/

/-- Source: `this.AUTH_TOKEN = 'supersecret'`. -/
def AUTH_TOKEN : String := "supersecret"

/-- A message sent to the client, flattened: `type`, the echoed
`requestId`, and the payload fields the repository uses (a field is
`none` when the JS object does not carry it). -/
structure ServerMsg where
  type : String
  requestId : Option String := none
  success : Option Bool := none
  message : Option String := none
  ok : Option Bool := none
  printers : Option (List PrinterInfo) := none
  totalPrinters : Option Nat := none
  defaultPrinter : Option (Option String) := none
deriving DecidableEq

/-- The `payload` object of a parsed client command (`text` and
`printerName` may be absent). -/
structure ClientPayload where
  text : Option (List Nat)
  printerName : Option String
deriving DecidableEq

/-- A parsed client command: `type`, optional `requestId`, optional
`payload`. -/
structure ClientMsg where
  type : String
  requestId : Option String
  payload : Option ClientPayload
deriving DecidableEq

/-- The unsolicited welcome message sent after successful
authentication. -/
def connectedMsg : ServerMsg :=
  { type := "connected", message := some "AaravPOS Print Server Connected" }

/-- Evaluation of `this.buildBuffer(data.payload.text, false)` for
`print_text`: accessing `.text` of an absent payload throws, and
`Buffer.from(undefined, ...)` throws; both `TypeError`s are caught by
the surrounding `try`. -/
def getTextArg (p : Option ClientPayload) : Except String (List Nat) :=
  match p with
  | none => .error "Cannot read properties of undefined (reading 'text')"
  | some pp =>
    match pp.text with
    | none =>
      .error "The first argument must be of type string or an instance of Buffer"
    | some t => .ok t

/-- The `health_response` message (`src/print-server.js` lines
232–245). -/
def healthResponse (printers : List PrinterInfo) (reqId : Option String) :
    ServerMsg :=
  { type := "health_response", requestId := reqId, ok := some true,
    printers := some printers, totalPrinters := some printers.length,
    defaultPrinter := some
      (match printers.find? (fun p => p.isDefault) with
        | some p => if p.name = "" then none else some p.name
        | none => none) }

/-- The `print_response` message for a `print_text` command
(`src/print-server.js` lines 247–269): any exception in the `try`
block — including the `TypeError` from a missing payload or text — is
caught and answered with `success: false` and the echoed request id. -/
def printTextResponse (printResult : Except String String)
    (data : ClientMsg) : ServerMsg :=
  match getTextArg data.payload with
  | .error e =>
    { type := "print_response", requestId := data.requestId,
      success := some false, message := some ("Print failed: " ++ e) }
  | .ok _ =>
    match printResult with
    | .ok _ =>
      { type := "print_response", requestId := data.requestId,
        success := some true,
        message := some ("Printed to " ++
          jsShow (match data.payload with
            | some pp => pp.printerName
            | none => none)) }
    | .error e =>
      { type := "print_response", requestId := data.requestId,
        success := some false, message := some ("Print failed: " ++ e) }

/-- The `test_print_response` message (`src/print-server.js` lines
271–305); the fixed receipt always builds, so only the routing can
fail, or the `printerName` access throws on an absent payload. -/
def testPrintResponse (printResult : Except String String)
    (data : ClientMsg) : ServerMsg :=
  match data.payload with
  | none =>
    { type := "test_print_response", requestId := data.requestId,
      success := some false,
      message := some
        "Test print failed: Cannot read properties of undefined (reading 'printerName')" }
  | some _ =>
    match printResult with
    | .ok _ =>
      { type := "test_print_response", requestId := data.requestId,
        success := some true,
        message := some "Test print sent successfully" }
    | .error e =>
      { type := "test_print_response", requestId := data.requestId,
        success := some false, message := some ("Test print failed: " ++ e) }

/-- The `cash_drawer_response` message (`src/print-server.js` lines
307–329). -/
def cashDrawerResponse (printResult : Except String String)
    (data : ClientMsg) : ServerMsg :=
  match data.payload with
  | none =>
    { type := "cash_drawer_response", requestId := data.requestId,
      success := some false,
      message := some
        "Cash drawer failed: Cannot read properties of undefined (reading 'printerName')" }
  | some _ =>
    match printResult with
    | .ok _ =>
      { type := "cash_drawer_response", requestId := data.requestId,
        success := some true, message := some "Cash drawer opened" }
    | .error e =>
      { type := "cash_drawer_response", requestId := data.requestId,
        success := some false,
        message := some ("Cash drawer failed: " ++ e) }

/-- The `switch (data.type)` of the message handler: exactly one
response per parsed command, the default branch answering `error` with
the echoed request id. -/
def dispatch (printers : List PrinterInfo)
    (printResult : Except String String) (data : ClientMsg) : ServerMsg :=
  if data.type = "health" then healthResponse printers data.requestId
  else if data.type = "print_text" then printTextResponse printResult data
  else if data.type = "test_print" then testPrintResponse printResult data
  else if data.type = "open_cash_drawer" then
    cashDrawerResponse printResult data
  else
    { type := "error", requestId := data.requestId,
      message := some ("Unknown command: " ++ data.type) }

/-- One inbound frame: `none` models a frame `JSON.parse` rejects, which
the outer `catch` answers with a generic `error` message carrying no
request id; the connection keeps listening either way. -/
def handleFrame (printers : List PrinterInfo)
    (printResult : Except String String) :
    Option ClientMsg → ServerMsg
  | none =>
    { type := "error", message := some "Invalid request format" }
  | some data => dispatch printers printResult data

/-- What the server did with one inbound connection: the messages it
sent on it, in order, and whether the server itself closed it. -/
structure ConnectionResult where
  sent : List ServerMsg
  closedByServer : Bool
deriving DecidableEq

/-- The `connection` handler (`src/print-server.js` lines 206–354): the
token query parameter is compared against the shared secret before
anything is sent; on mismatch the socket is closed with nothing sent and
no message handler installed.  On success the `connected` message is
sent and every subsequent frame gets exactly one response.  `frames`
pairs each inbound frame with the `printRaw` outcome a routed job would
have. -/
def handleConnection (token : Option String)
    (printers : List PrinterInfo)
    (frames : List (Option ClientMsg × Except String String)) :
    ConnectionResult :=
  if token ≠ some AUTH_TOKEN then ⟨[], true⟩
  else ⟨connectedMsg :: frames.map (fun f => handleFrame printers f.2 f.1),
    false⟩

/-- A prefix of an append either stays inside the left part or swallows
it whole. -/
theorem prefix_append_cases {α : Type} {p xs ys : List α}
    (h : p <+: xs ++ ys) : p <+: xs ∨ ∃ q, p = xs ++ q ∧ q <+: ys := by
  induction xs generalizing p with
  | nil => exact Or.inr ⟨p, rfl, h⟩
  | cons x xs ih =>
    cases p with
    | nil => exact Or.inl List.nil_prefix
    | cons a p =>
      rw [List.cons_append, List.cons_prefix_cons] at h
      obtain ⟨rfl, h⟩ := h
      rcases ih h with h' | ⟨q, rfl, hq⟩
      · exact Or.inl (List.cons_prefix_cons.mpr ⟨rfl, h'⟩)
      · exact Or.inr ⟨q, rfl, hq⟩

/-- An infix of an append lies in the left part, lies in the right part,
or splits into a nonempty suffix of the left part followed by a nonempty
prefix of the right part. -/
theorem infix_append_cases {α : Type} {p xs ys : List α}
    (h : p <:+: xs ++ ys) :
    p <:+: xs ∨ p <:+: ys ∨
      ∃ s q, p = s ++ q ∧ s ≠ [] ∧ q ≠ [] ∧ s <:+ xs ∧ q <+: ys := by
  induction xs with
  | nil => exact Or.inr (Or.inl h)
  | cons x xs ih =>
    rw [List.cons_append, List.infix_cons_iff] at h
    rcases h with h | h
    · rw [← List.cons_append] at h
      rcases prefix_append_cases h with h' | ⟨q, rfl, hq⟩
      · exact Or.inl h'.isInfix
      · by_cases hqnil : q = []
        · subst hqnil
          exact Or.inl (by simp)
        · exact Or.inr (Or.inr ⟨x :: xs, q, rfl, by simp, hqnil,
            List.suffix_refl _, hq⟩)
    · rcases ih h with h' | h' | ⟨s, q, rfl, hs, hq, hsx, hqy⟩
      · exact Or.inl (List.infix_cons h')
      · exact Or.inr (Or.inl h')
      · exact Or.inr (Or.inr ⟨s, q, rfl, hs, hq,
          hsx.trans (List.suffix_cons x xs), hqy⟩)

/-- Appending the fixed plain tail cannot create a drawer-kick
occurrence: no byte of the tail can continue a partial kick started in
the text, and the tail itself contains no kick. -/
theorem kick_not_infix_append_tail {enc : List Nat}
    (h : ¬ DRAWER_KICK <:+: enc) : ¬ DRAWER_KICK <:+: enc ++ PLAIN_TAIL := by
  intro hcon
  rcases infix_append_cases hcon with h1 | h1 | ⟨s, q, hsq, hs, hq, _, hqy⟩
  · exact h h1
  · revert h1; decide
  · have hlen : DRAWER_KICK.length = s.length + q.length := by
      rw [hsq, List.length_append]
    have hq' : q = DRAWER_KICK.drop s.length := by
      rw [hsq, List.drop_left]
    obtain ⟨n, hn1, hn4, hq''⟩ :
        ∃ n, 1 ≤ n ∧ n ≤ 4 ∧ q = DRAWER_KICK.drop n := by
      refine ⟨s.length, ?_, ?_, hq'⟩
      · have := List.length_pos.mpr hs; omega
      · have := List.length_pos.mpr hq
        simp [DRAWER_KICK, ESC] at hlen; omega
    interval_cases n <;> (subst hq''; revert hqy; decide)

example : PrintServerJS.buildBuffer [72, 105] false =
    [72, 105, 10, 10, 10, 10, 10, 10, 27, 105] := by decide

example : PrintServerJS.buildBuffer [72, 105] true =
    [72, 105, 10, 10, 27, 112, 0, 25, 250, 10, 10, 10, 10, 27, 105] := by
  decide

example : PrintServerMac.buildBuffer [0x20AC] false =
    [0xE2, 0x82, 0xAC, 10, 10, 10, 10, 10, 10, 27, 105] := by decide

/-! ## Claim C1 -/

/-- C1 counterexample: the claim asserts that for every text `t`,
`buildBuffer(t, false)` contains no drawer-kick bytes.  It fails for the
text whose five code units are exactly the drawer-kick byte values: the
`'ascii'` encoding is byte-transparent below `0x100`, so the kick
sequence appears inside `buildBuffer(t, false)`. -/
theorem claim_C1_counterexample :
    DRAWER_KICK <:+: PrintServerJS.buildBuffer [0x1B, 0x70, 0x00, 0x19, 0xFA] false := by
  decide

/-- C1 (amended): `buildBuffer(t, d)` is exactly the `'ascii'` encoding
of `t`, two line feeds, the drawer kick when `d`, then the feed-and-cut
trailer; with `d = true` the kick sits immediately before the trailer;
and `buildBuffer(t, false)` contains no drawer-kick bytes *provided the
encoded text itself contains none* (the unconditional claim fails, see
the counterexample). -/
theorem claim_C1 (t : List Nat) (d : Bool) :
    PrintServerJS.buildBuffer t d =
      asciiEncode t ++ [LF, LF] ++
        (if d then DRAWER_KICK else []) ++ FEED_AND_CUT ∧
    PrintServerJS.buildBuffer t true =
      asciiEncode t ++ [LF, LF] ++ DRAWER_KICK ++ FEED_AND_CUT ∧
    (¬ DRAWER_KICK <:+: asciiEncode t →
      ¬ DRAWER_KICK <:+: PrintServerJS.buildBuffer t false) := by
  refine ⟨?_, ?_, ?_⟩
  · cases d <;> simp [PrintServerJS.buildBuffer]
  · simp [PrintServerJS.buildBuffer]
  · intro h
    have hb : PrintServerJS.buildBuffer t false = asciiEncode t ++ PLAIN_TAIL := by
      simp [PrintServerJS.buildBuffer, PLAIN_TAIL]
    rw [hb]
    exact kick_not_infix_append_tail h

/-- C1 witness: the amended no-kick clause discharged on a concrete
drawer-kick-free text. -/
theorem claim_C1_witness :
    ¬ DRAWER_KICK <:+: asciiEncode [72, 105] ∧
      ¬ DRAWER_KICK <:+: PrintServerJS.buildBuffer [72, 105] false :=
  ⟨by decide, (claim_C1 [72, 105] false).2.2 (by decide)⟩

/-! ## Claim C2 -/

/-- The decoder at the empty byte list. -/
theorem utf8Decode_nil : utf8Decode [] = [] := by rw [utf8Decode]

/-- Decoding one encoded scalar value peels off exactly its UTF-16
units, whatever bytes follow. -/
theorem utf8Decode_encodeScalar (c : Nat) (hc : c < 0x110000)
    (tail : List Nat) :
    utf8Decode (utf8EncodeScalar c ++ tail) =
      utf16OfScalar c ++ utf8Decode tail := by
  by_cases h1 : c < 0x80
  · rw [utf8EncodeScalar, if_pos h1, utf16OfScalar,
      if_pos (show c < 0x10000 by omega), List.singleton_append,
      List.singleton_append, utf8Decode]
    simp [h1]
  · by_cases h2 : c < 0x800
    · have e1 : ¬ (0xC0 + c / 0x40 < 0x80) := by omega
      have e2 : 0xC0 + c / 0x40 < 0xE0 := by omega
      rw [utf8EncodeScalar, if_neg h1, if_pos h2, List.cons_append,
        List.cons_append, List.nil_append, utf8Decode]
      simp only [if_neg e1, if_pos e2, List.length_cons,
        List.getD_cons_zero, List.drop_succ_cons, List.drop_zero]
      rw [if_neg (by omega), utf16OfScalar,
        if_pos (show c < 0x10000 by omega), List.singleton_append]
      have harith : (0xC0 + c / 0x40 - 0xC0) * 0x40 +
          (0x80 + c % 0x40 - 0x80) = c := by omega
      rw [harith]
    · by_cases h3 : c < 0x10000
      · have e1 : ¬ (0xE0 + c / 0x1000 < 0x80) := by omega
        have e2 : ¬ (0xE0 + c / 0x1000 < 0xE0) := by omega
        have e3 : 0xE0 + c / 0x1000 < 0xF0 := by omega
        rw [utf8EncodeScalar, if_neg h1, if_neg h2, if_pos h3,
          List.cons_append, List.cons_append, List.cons_append,
          List.nil_append, utf8Decode]
        simp only [if_neg e1, if_neg e2, if_pos e3, List.length_cons,
          List.getD_cons_zero, List.getD_cons_succ, List.drop_succ_cons,
          List.drop_zero]
        rw [if_neg (by omega), utf16OfScalar, if_pos h3,
          List.singleton_append]
        have harith : (0xE0 + c / 0x1000 - 0xE0) * 0x1000 +
            (0x80 + c / 0x40 % 0x40 - 0x80) * 0x40 +
            (0x80 + c % 0x40 - 0x80) = c := by omega
        rw [harith]
      · have e1 : ¬ (0xF0 + c / 0x40000 < 0x80) := by omega
        have e2 : ¬ (0xF0 + c / 0x40000 < 0xE0) := by omega
        have e3 : ¬ (0xF0 + c / 0x40000 < 0xF0) := by omega
        rw [utf8EncodeScalar, if_neg h1, if_neg h2, if_neg h3,
          List.cons_append, List.cons_append, List.cons_append,
          List.cons_append, List.nil_append, utf8Decode]
        simp only [if_neg e1, if_neg e2, if_neg e3, List.length_cons,
          List.getD_cons_zero, List.getD_cons_succ, List.drop_succ_cons,
          List.drop_zero]
        rw [if_neg (by omega)]
        have harith : (0xF0 + c / 0x40000 - 0xF0) * 0x40000 +
            (0x80 + c / 0x1000 % 0x40 - 0x80) * 0x1000 +
            (0x80 + c / 0x40 % 0x40 - 0x80) * 0x40 +
            (0x80 + c % 0x40 - 0x80) = c := by omega
        rw [harith]

/-- The `'utf8'` encoding round-trips on every well-formed UTF-16
code-unit sequence. -/
theorem utf8Encode_roundtrip :
    ∀ t : List Nat, wfUtf16 t = true → utf8Decode (utf8Encode t) = t
  | [], _ => utf8Decode_nil
  | [u], h => by
    simp only [wfUtf16, Bool.and_eq_true, Bool.not_eq_true',
      decide_eq_true_eq] at h
    obtain ⟨⟨h1, h2⟩, h3⟩ := h
    have key := utf8Decode_encodeScalar u (by omega) []
    simp only [utf8Decode_nil, List.append_nil] at key
    have henc : utf8Encode [u] = utf8EncodeScalar u := by
      rw [utf8Encode, utf8EncodeUnit, if_neg (by simp [h2, h3])]
    rw [henc, key, utf16OfScalar, if_pos h1]
  | u :: v :: rest, h => by
    rw [wfUtf16] at h
    by_cases hu : isHighSurrogate u = true
    · rw [if_pos hu, Bool.and_eq_true] at h
      obtain ⟨hv, hrest⟩ := h
      have hu' : 0xD800 ≤ u ∧ u < 0xDC00 := by
        rw [isHighSurrogate, decide_eq_true_eq] at hu; exact hu
      have hv' : 0xDC00 ≤ v ∧ v < 0xE000 := by
        rw [isLowSurrogate, decide_eq_true_eq] at hv; exact hv
      have henc : utf8Encode (u :: v :: rest) =
          utf8EncodeScalar (0x10000 + (u - 0xD800) * 0x400 + (v - 0xDC00)) ++
            utf8Encode rest := by
        rw [utf8Encode, hu, hv]; rfl
      rw [henc, utf8Decode_encodeScalar _ (by omega),
        utf8Encode_roundtrip rest hrest]
      have hpair : utf16OfScalar
          (0x10000 + (u - 0xD800) * 0x400 + (v - 0xDC00)) = [u, v] := by
        rw [utf16OfScalar, if_neg (by omega)]
        have d1 : 0xD800 +
            (0x10000 + (u - 0xD800) * 0x400 + (v - 0xDC00) - 0x10000) /
              0x400 = u := by omega
        have d2 : 0xDC00 +
            (0x10000 + (u - 0xD800) * 0x400 + (v - 0xDC00) - 0x10000) %
              0x400 = v := by omega
        rw [d1, d2]
      rw [hpair]
      rfl
    · have hu' : isHighSurrogate u = false := by
        revert hu; cases isHighSurrogate u <;> simp
      rw [if_neg hu, Bool.and_eq_true, Bool.and_eq_true] at h
      obtain ⟨⟨h1, h2⟩, hrest⟩ := h
      rw [decide_eq_true_eq] at h1
      rw [Bool.not_eq_true'] at h2
      have henc : utf8Encode (u :: v :: rest) =
          utf8EncodeScalar u ++ utf8Encode (v :: rest) := by
        rw [utf8Encode, hu', Bool.false_and, if_neg (by simp),
          utf8EncodeUnit, if_neg (by simp [hu', h2])]
      rw [henc, utf8Decode_encodeScalar u (by omega),
        utf8Encode_roundtrip (v :: rest) hrest, utf16OfScalar, if_pos h1]
      rfl

/-- C2 counterexample: in `src/print-server.js` the text is encoded with
`'ascii'`, which is not injective on multi-byte characters: the
one-character texts U+20AC (€) and U+00AC produce identical buffers, so
no decoding of the leading segment can return the original text. -/
theorem claim_C2_counterexample :
    PrintServerJS.buildBuffer [0x20AC] false =
        PrintServerJS.buildBuffer [0xAC] false ∧
      [0x20AC] ≠ ([0xAC] : List Nat) := by
  constructor
  · decide
  · decide

/-- C2 (amended): in the `src/unnamed/part_001` revision, whose
`buildBuffer` encodes with `'utf8'`, the leading segment of
`buildBuffer(t, d)` decodes back to `t` for every well-formed text `t`
(no lone surrogates), multi-byte characters included; the
`src/print-server.js` revision's `'ascii'` encoding does not preserve
multi-byte characters (see the counterexample). -/
theorem claim_C2 (t : List Nat) (d : Bool) (h : wfUtf16 t = true) :
    utf8Decode ((PrintServerMac.buildBuffer t d).take (utf8Encode t).length) =
      t := by
  have hb : PrintServerMac.buildBuffer t d =
      utf8Encode t ++
        ([LF, LF] ++ (if d then DRAWER_KICK else []) ++ FEED_AND_CUT) := by
    cases d <;> simp [PrintServerMac.buildBuffer]
  rw [hb, List.take_left, utf8Encode_roundtrip t h]

/-- C2 witness: the round trip evaluated on the multi-byte text U+20AC. -/
theorem claim_C2_witness :
    wfUtf16 [0x20AC] = true ∧
      utf8Decode ((PrintServerMac.buildBuffer [0x20AC] true).take
        (utf8Encode [0x20AC]).length) = [0x20AC] :=
  ⟨by decide, claim_C2 [0x20AC] true (by decide)⟩

/-! ## Claim C3 -/

/-- C3: a connection whose `token` query parameter is missing or not
exactly the shared secret is closed by the server with zero messages
sent — no `connected` message and no response, whatever frames the
client attempts. -/
theorem claim_C3 (token : Option String) (printers : List PrinterInfo)
    (frames : List (Option ClientMsg × Except String String))
    (h : token ≠ some AUTH_TOKEN) :
    handleConnection token printers frames = ⟨[], true⟩ := by
  rw [handleConnection, if_pos h]

/-- C3 witness: a connection with no token at all, sending two frames,
gets nothing back and is closed. -/
theorem claim_C3_witness :
    (none : Option String) ≠ some AUTH_TOKEN ∧
      handleConnection none []
        [(none, Except.ok ""),
          (some ⟨"health", some "1", none⟩, Except.ok "")] = ⟨[], true⟩ :=
  ⟨by decide,
    claim_C3 none []
      [(none, Except.ok ""), (some ⟨"health", some "1", none⟩, Except.ok "")]
      (by decide)⟩

/-! ## Claim C4 -/

/-- C4: printer discovery never raises to its caller, in either
revision: on every platform and every combination of inputs it
resolves, and every failure path — platform-command failure, Windows
CSV re-query failure, PowerShell failure or empty output, JSON-parse
failure, unsupported platform — resolves to the *empty* printer
list. -/
theorem claim_C4 :
    (∀ (platform : Platform) (listRes csvRes defRes : ExecResult)
        (defMatch : Option String),
      ∃ l, PrintServerJS.getPrinters platform listRes csvRes defRes
        defMatch = Except.ok l) ∧
    (∀ (listRes csvRes defRes : ExecResult) (defMatch : Option String),
      PrintServerJS.getPrinters Platform.other listRes csvRes defRes
        defMatch = Except.ok []) ∧
    (∀ (platform : Platform) (listRes csvRes defRes : ExecResult)
        (defMatch : Option String) (e : String),
      listRes.error = some e →
      PrintServerJS.getPrinters platform listRes csvRes defRes defMatch =
        Except.ok []) ∧
    (∀ (listRes csvRes defRes : ExecResult) (defMatch : Option String)
        (e : String),
      csvRes.error = some e →
      PrintServerJS.getPrinters Platform.win32 listRes csvRes defRes
        defMatch = Except.ok []) ∧
    (∀ (platform : Platform) (defRes listRes : ExecResult)
        (defMatch : Option String) (winRes : ExecResult)
        (winParsed : PrintServerMac.PSJsonResult),
      ∃ l, PrintServerMac.getPrinters platform defRes listRes defMatch
        winRes winParsed = Except.ok l) ∧
    (∀ (defRes listRes : ExecResult) (defMatch : Option String)
        (winRes : ExecResult) (winParsed : PrintServerMac.PSJsonResult),
      PrintServerMac.getPrinters Platform.other defRes listRes defMatch
        winRes winParsed = Except.ok []) ∧
    (∀ (defRes listRes : ExecResult) (defMatch : Option String)
        (winRes : ExecResult) (winParsed : PrintServerMac.PSJsonResult)
        (e : String),
      listRes.error = some e →
      PrintServerMac.getPrinters Platform.darwin defRes listRes defMatch
          winRes winParsed = Except.ok [] ∧
        PrintServerMac.getPrinters Platform.linux defRes listRes defMatch
          winRes winParsed = Except.ok []) ∧
    (∀ (defRes listRes : ExecResult) (defMatch : Option String)
        (winRes : ExecResult) (winParsed : PrintServerMac.PSJsonResult),
      winRes.error ≠ none ∨ winRes.stdout = "" →
      PrintServerMac.getPrinters Platform.win32 defRes listRes defMatch
        winRes winParsed = Except.ok []) ∧
    (∀ (defRes listRes : ExecResult) (defMatch : Option String)
        (winRes : ExecResult),
      PrintServerMac.getPrinters Platform.win32 defRes listRes defMatch
        winRes PrintServerMac.PSJsonResult.parseError = Except.ok []) := by
  refine ⟨?_, ?_, ?_, ?_, ?_, ?_, ?_, ?_, ?_⟩
  · intro platform listRes csvRes defRes defMatch
    cases platform
    case darwin =>
      cases hl : listRes.error <;>
        (simp only [PrintServerJS.getPrinters, hl]; exact ⟨_, rfl⟩)
    case linux =>
      cases hl : listRes.error <;>
        (simp only [PrintServerJS.getPrinters, hl]; exact ⟨_, rfl⟩)
    case win32 =>
      cases hl : listRes.error
      · cases hc : csvRes.error <;>
          (simp only [PrintServerJS.getPrinters, hl, hc]; exact ⟨_, rfl⟩)
      · simp only [PrintServerJS.getPrinters, hl]
        exact ⟨_, rfl⟩
    case other => exact ⟨[], rfl⟩
  · intro listRes csvRes defRes defMatch
    rfl
  · intro platform listRes csvRes defRes defMatch e he
    cases platform <;> simp only [PrintServerJS.getPrinters, he]
  · intro listRes csvRes defRes defMatch e he
    cases hl : listRes.error <;>
      simp only [PrintServerJS.getPrinters, hl, he]
  · intro platform defRes listRes defMatch winRes winParsed
    cases platform
    case darwin =>
      cases hg : PrintServerMac.getMacOSPrinters defRes listRes defMatch <;>
        (simp only [PrintServerMac.getPrinters, hg]; exact ⟨_, rfl⟩)
    case linux =>
      cases hg : PrintServerMac.getLinuxPrinters defRes listRes defMatch <;>
        (simp only [PrintServerMac.getPrinters, hg]; exact ⟨_, rfl⟩)
    case win32 =>
      cases hg : PrintServerMac.getWindowsPrinters winRes winParsed <;>
        (simp only [PrintServerMac.getPrinters, hg]; exact ⟨_, rfl⟩)
    case other => exact ⟨[], rfl⟩
  · intro defRes listRes defMatch winRes winParsed
    rfl
  · intro defRes listRes defMatch winRes winParsed e he
    constructor
    · simp only [PrintServerMac.getPrinters,
        PrintServerMac.getMacOSPrinters, he]
    · simp only [PrintServerMac.getPrinters,
        PrintServerMac.getLinuxPrinters, he]
  · intro defRes listRes defMatch winRes winParsed h
    simp only [PrintServerMac.getPrinters]
    unfold PrintServerMac.getWindowsPrinters
    rw [if_pos h]
  · intro defRes listRes defMatch winRes
    by_cases h : winRes.error ≠ none ∨ winRes.stdout = ""
    · simp only [PrintServerMac.getPrinters]
      unfold PrintServerMac.getWindowsPrinters
      rw [if_pos h]
    · simp only [PrintServerMac.getPrinters]
      unfold PrintServerMac.getWindowsPrinters
      rw [if_neg h]

/-- C4 witness: each failure-to-empty-list clause discharged at a
concrete failing input — a failed `lpstat` on Linux (both revisions), a
failed Windows CSV re-query, a failed PowerShell invocation, and a
JSON-parse failure. -/
theorem claim_C4_witness :
    (ExecResult.mk (some "spawn lpstat ENOENT") "").error =
        some "spawn lpstat ENOENT" ∧
      PrintServerJS.getPrinters Platform.linux
        ⟨some "spawn lpstat ENOENT", ""⟩ ⟨none, ""⟩ ⟨none, ""⟩ none =
        Except.ok [] ∧
      PrintServerJS.getPrinters Platform.win32 ⟨none, ""⟩
        ⟨some "exit 1", ""⟩ ⟨none, ""⟩ none = Except.ok [] ∧
      PrintServerMac.getPrinters Platform.linux ⟨none, ""⟩
        ⟨some "spawn lpstat ENOENT", ""⟩ none ⟨none, ""⟩
        (PrintServerMac.PSJsonResult.arr []) = Except.ok [] ∧
      PrintServerMac.getPrinters Platform.win32 ⟨none, ""⟩ ⟨none, ""⟩ none
        ⟨some "powershell failed", ""⟩
        (PrintServerMac.PSJsonResult.arr []) = Except.ok [] ∧
      PrintServerMac.getPrinters Platform.win32 ⟨none, ""⟩ ⟨none, ""⟩ none
        ⟨none, "not json"⟩ PrintServerMac.PSJsonResult.parseError =
        Except.ok [] :=
  ⟨rfl,
    claim_C4.2.2.1 Platform.linux ⟨some "spawn lpstat ENOENT", ""⟩
      ⟨none, ""⟩ ⟨none, ""⟩ none "spawn lpstat ENOENT" rfl,
    claim_C4.2.2.2.1 ⟨none, ""⟩ ⟨some "exit 1", ""⟩ ⟨none, ""⟩ none
      "exit 1" rfl,
    (claim_C4.2.2.2.2.2.2.1 ⟨none, ""⟩ ⟨some "spawn lpstat ENOENT", ""⟩
      none ⟨none, ""⟩ (PrintServerMac.PSJsonResult.arr [])
      "spawn lpstat ENOENT" rfl).2,
    claim_C4.2.2.2.2.2.2.2.1 ⟨none, ""⟩ ⟨none, ""⟩ none
      ⟨some "powershell failed", ""⟩ (PrintServerMac.PSJsonResult.arr [])
      (Or.inl (by simp)),
    claim_C4.2.2.2.2.2.2.2.2 ⟨none, ""⟩ ⟨none, ""⟩ none
      ⟨none, "not json"⟩⟩

/-! ## Claim C5 -/

/-- Every printer the macOS line parser produces carries
`isConnected = (status != 'OFFLINE')`. -/
theorem parseMacLine_isConnected {dp : Option String} {line : String}
    {pi : PrinterInfo}
    (h : PrintServerMac.parseMacLine dp line = some pi) :
    pi.isConnected = some (pi.status != "OFFLINE") := by
  rw [PrintServerMac.parseMacLine] at h
  split at h
  · simp only [Option.some.injEq] at h
    subst h
    rfl
  · exact absurd h (by simp)

/-- Every printer the Linux line parser produces carries
`isConnected = (status != 'OFFLINE')`. -/
theorem parseLinuxLine_isConnected {dp : Option String} {line : String}
    {pi : PrinterInfo}
    (h : PrintServerMac.parseLinuxLine dp line = some pi) :
    pi.isConnected = some (pi.status != "OFFLINE") := by
  rw [PrintServerMac.parseLinuxLine] at h
  split at h
  · simp only [Option.some.injEq] at h
    subst h
    rfl
  · exact absurd h (by simp)

/-- C5 counterexample: on the POSIX path of `src/print-server.js`,
discovery pushes printer objects with *no* `isConnected` property at
all (modelled `none`), so the claimed invariant — every returned
`PrinterInfo` has a boolean `isConnected` equal to
`status != 'OFFLINE'` — fails on this concrete `lpstat` output. -/
theorem claim_C5_counterexample :
    PrintServerJS.getPrinters Platform.linux
        ⟨none, "printer Foo is idle.  enabled since now"⟩ ⟨none, ""⟩
        ⟨some "err", ""⟩ none =
      Except.ok [⟨"Foo", false, "READY", none⟩] ∧
    (PrinterInfo.mk "Foo" false "READY" none).isConnected = none := by
  exact ⟨rfl, rfl⟩

/-- C5 (amended): the derived-field invariant
`isConnected = (status != 'OFFLINE')` holds for every printer returned
by the `src/unnamed/part_001` discovery on every platform path, and for
the Windows path of `src/print-server.js`; the POSIX path of
`src/print-server.js` omits the `isConnected` field entirely (see the
counterexample). -/
theorem claim_C5 (platform : Platform) (defRes listRes : ExecResult)
    (defMatch : Option String) (winRes : ExecResult)
    (winParsed : PrintServerMac.PSJsonResult)
    (listRes2 csvRes defRes2 : ExecResult)
    (defMatch2 : Option String) :
    (∀ pi ∈ printersOf (PrintServerMac.getPrinters platform defRes listRes
        defMatch winRes winParsed),
      pi.isConnected = some (pi.status != "OFFLINE")) ∧
    (∀ pi ∈ printersOf (PrintServerJS.getPrinters Platform.win32 listRes2
        csvRes defRes2 defMatch2),
      pi.isConnected = some (pi.status != "OFFLINE")) := by
  constructor
  · intro pi hpi
    cases platform
    case darwin =>
      rw [PrintServerMac.getPrinters] at hpi
      cases hl : listRes.error with
      | some e =>
        simp [PrintServerMac.getMacOSPrinters, hl, printersOf] at hpi
      | none =>
        simp only [PrintServerMac.getMacOSPrinters, hl, printersOf,
          List.mem_filterMap] at hpi
        obtain ⟨line, _, hline⟩ := hpi
        exact parseMacLine_isConnected hline
    case linux =>
      rw [PrintServerMac.getPrinters] at hpi
      cases hl : listRes.error with
      | some e =>
        simp [PrintServerMac.getLinuxPrinters, hl, printersOf] at hpi
      | none =>
        simp only [PrintServerMac.getLinuxPrinters, hl, printersOf,
          List.mem_filterMap] at hpi
        obtain ⟨line, _, hline⟩ := hpi
        exact parseLinuxLine_isConnected hline
    case win32 =>
      rw [PrintServerMac.getPrinters] at hpi
      cases hg : PrintServerMac.getWindowsPrinters winRes winParsed with
      | error e => rw [hg] at hpi; simp [printersOf] at hpi
      | ok l =>
        rw [hg] at hpi
        simp only [printersOf] at hpi
        unfold PrintServerMac.getWindowsPrinters at hg
        split at hg
        · simp only [Except.ok.injEq] at hg
          rw [← hg] at hpi
          simp at hpi
        · split at hg
          · simp only [Except.ok.injEq] at hg
            rw [← hg] at hpi
            simp at hpi
          · simp only [Except.ok.injEq] at hg
            rw [← hg] at hpi
            simp only [List.mem_map] at hpi
            obtain ⟨p, _, hp⟩ := hpi
            subst hp
            rfl
          · simp only [Except.ok.injEq] at hg
            rw [← hg] at hpi
            simp only [List.mem_map] at hpi
            obtain ⟨p, _, hp⟩ := hpi
            subst hp
            rfl
    case other => simp [PrintServerMac.getPrinters, printersOf] at hpi
  · intro pi hpi
    rw [PrintServerJS.getPrinters] at hpi
    cases hl : listRes2.error with
    | some e => simp [hl, printersOf] at hpi
    | none =>
      cases hc : csvRes.error with
      | some e => simp [hl, hc, printersOf] at hpi
      | none =>
        simp only [hl, hc, printersOf, List.mem_filterMap] at hpi
        obtain ⟨line, _, hline⟩ := hpi
        rw [PrintServerJS.parseWindowsCSVLine] at hline
        split at hline
        · exact absurd hline (by simp)
        · split at hline
          · exact absurd hline (by simp)
          · split at hline
            · exact absurd hline (by simp)
            · simp only [Option.some.injEq] at hline
              subst hline
              rfl

/-- C5 witness: the amended invariant evaluated on a concrete Linux
discovery of the `src/unnamed/part_001` revision. -/
theorem claim_C5_witness :
    PrinterInfo.mk "Foo" false "READY" (some true) ∈
        printersOf (PrintServerMac.getPrinters Platform.linux
          ⟨some "e", ""⟩ ⟨none, "printer Foo is idle.  enabled since now"⟩
          none ⟨none, ""⟩ PrintServerMac.PSJsonResult.parseError) ∧
      (PrinterInfo.mk "Foo" false "READY" (some true)).isConnected =
        some ((PrinterInfo.mk "Foo" false "READY"
          (some true)).status != "OFFLINE") :=
  ⟨by decide,
    (claim_C5 Platform.linux ⟨some "e", ""⟩
      ⟨none, "printer Foo is idle.  enabled since now"⟩ none ⟨none, ""⟩
      PrintServerMac.PSJsonResult.parseError ⟨none, ""⟩ ⟨none, ""⟩
      ⟨none, ""⟩ none).1 _ (by decide)⟩

/-! ## Claim C6 -/

/-- C6 counterexample: in `src/print-server.js`, `printRaw` runs the
spool command through `exec(command, callback)` with no options object,
so no execution timeout applies (the options' `timeout` is absent,
shown here on the Linux path at a concrete printer and file). -/
theorem claim_C6_counterexample :
    (PrintServerJS.printRawCommand Platform.linux "Epson"
      "/tmp/aaravpos-1.raw").map (fun c => c.options.timeout) =
      some none := rfl

/-- C6 (amended): in the `src/unnamed/part_001` revision, every spool
command `printRaw` executes carries the fixed `{ timeout: 10000 }`
option, and any command error — including a kill by that timeout —
reaches the caller as a rejection; the `src/print-server.js` revision
passes no timeout at all (see the counterexample). -/
theorem claim_C6 (platform : Platform) (pn tf : String) :
    (∀ c, PrintServerMac.printRawCommand platform pn tf = some c →
      c.options.timeout = some 10000) ∧
    (∀ c e res, PrintServerMac.printRawCommand platform pn tf = some c →
      res.error = some e →
      PrintServerMac.printRaw platform pn none res = Except.error e) := by
  constructor
  · intro c hc
    cases platform <;> simp [PrintServerMac.printRawCommand] at hc <;>
      simp [← hc]
  · intro c e res hc he
    cases platform <;>
      simp [PrintServerMac.printRawCommand] at hc <;>
      simp [PrintServerMac.printRaw, PrintServerMac.printRawCommand, he]

/-- C6 witness: the Linux spool command carries the 10-second timeout,
and a concrete command error is reported as a rejection. -/
theorem claim_C6_witness :
    (ExecCall.mk "lp -d \"Epson\" -o raw \"/tmp/f\""
        ⟨some 10000⟩).options.timeout = some 10000 ∧
      PrintServerMac.printRaw Platform.linux "Epson" none
        ⟨some "killed", ""⟩ = Except.error "killed" :=
  ⟨(claim_C6 Platform.linux "Epson" "/tmp/f").1 _ rfl,
    (claim_C6 Platform.linux "Epson" "/tmp/f").2
      (ExecCall.mk "lp -d \"Epson\" -o raw \"/tmp/f\"" ⟨some 10000⟩)
      "killed" ⟨some "killed", ""⟩ rfl rfl⟩

/-! ## Claim C7 -/

/-- C7 counterexample: the transient file name depends only on the
millisecond `Date.now()` value, so two distinct invocations falling in
the same millisecond receive the *same* path — the timestamp does not
guarantee uniqueness across concurrent requests. -/
theorem claim_C7_counterexample :
    printJobTempFile "/tmp" ⟨1700000000000, "PrinterA", [1]⟩ =
        printJobTempFile "/tmp" ⟨1700000000000, "PrinterB", [2]⟩ ∧
      PrintJob.mk 1700000000000 "PrinterA" [1] ≠
        PrintJob.mk 1700000000000 "PrinterB" [2] :=
  ⟨rfl, by decide⟩

/-- Decimal digit characters decode back to their digit values. -/
theorem toNat_ofNat_digit :
    ∀ d : Fin 10, (Char.ofNat (48 + d.val)).toNat = 48 + d.val := by
  decide

/-- Function `digitsToNat` inverts `natToDigits`. -/
theorem digitsToNat_natToDigits (n : Nat) :
    digitsToNat (natToDigits n) = n := by
  rw [natToDigits]
  split
  case isTrue h =>
    have hd := toNat_ofNat_digit ⟨n, h⟩
    simp only [digitsToNat, List.foldl_cons, List.foldl_nil] at *
    omega
  case isFalse h =>
    have ih := digitsToNat_natToDigits (n / 10)
    have hd := toNat_ofNat_digit ⟨n % 10, by omega⟩
    simp only [digitsToNat, List.foldl_append, List.foldl_cons,
      List.foldl_nil] at *
    rw [ih]
    omega
termination_by n
decreasing_by omega

/-- The decimal representation is injective. -/
theorem natToDigits_inj {m n : Nat} (h : natToDigits m = natToDigits n) :
    m = n := by
  have hm := digitsToNat_natToDigits m
  rw [h, digitsToNat_natToDigits] at hm
  omega

/-- Distinct `Date.now()` values give distinct transient file paths. -/
theorem tempFile_inj (tempDir : String) {m n : Nat}
    (h : tempFile tempDir m = tempFile tempDir n) : m = n := by
  apply natToDigits_inj
  have hd := congrArg String.data h
  simp only [tempFile, String.data_append, List.append_assoc] at hd
  have h1 := List.append_cancel_left hd
  have h2 := List.append_cancel_left h1
  have h3 := List.append_cancel_left h2
  exact List.append_cancel_right h3

/-- C7 (amended): two print-router invocations whose `Date.now()`
millisecond readings differ write to distinct transient paths; within
the same millisecond the paths coincide (see the counterexample), the
narrow race the design notes acknowledge. -/
theorem claim_C7 (tempDir : String) (a b : PrintJob)
    (h : a.now ≠ b.now) :
    printJobTempFile tempDir a ≠ printJobTempFile tempDir b :=
  fun he => h (tempFile_inj tempDir he)

/-- C7 witness: two jobs one millisecond apart get distinct paths. -/
theorem claim_C7_witness :
    (PrintJob.mk 1700000000000 "A" []).now ≠
        (PrintJob.mk 1700000000001 "A" []).now ∧
      printJobTempFile "/tmp" ⟨1700000000000, "A", []⟩ ≠
        printJobTempFile "/tmp" ⟨1700000000001, "A", []⟩ :=
  ⟨by decide, claim_C7 "/tmp" ⟨1700000000000, "A", []⟩
    ⟨1700000000001, "A", []⟩ (by decide)⟩

/-! ## Claim C8 -/

/-- C8 counterexample: start the service, then stop it; `getStatus()`
still reports `isRunning: true`, because `stop()` closes the listener
but never clears `this.wss`, and `isRunning` is computed as
`this.wss !== null`. -/
theorem claim_C8_counterexample :
    (getStatus (stopServer (startServer initServer))).isRunning = true :=
  rfl

/-- C8 (amended): after `start()` then `stop()` the listener is closed,
yet `getStatus()` reports `isRunning: true` — the reference, not the
live listener state, is what `isRunning` tests; `isRunning: false` is
reported only for an instance on which `start()` never ran. -/
theorem claim_C8 (s : PrintServerState) :
    (stopServer (startServer s)).wss = some ⟨false⟩ ∧
      (getStatus (stopServer (startServer s))).isRunning = true ∧
      (getStatus initServer).isRunning = false :=
  ⟨rfl, rfl, rfl⟩

/-! ## Claim C9 -/

/-- A `print_text` command whose text argument evaluation throws is
answered with `success: false` and the echoed request id. -/
theorem printTextResponse_of_textError {pr : Except String String}
    {data : ClientMsg} (e : String)
    (h : getTextArg data.payload = Except.error e) :
    printTextResponse pr data =
      { type := "print_response", requestId := data.requestId,
        success := some false,
        message := some ("Print failed: " ++ e) } := by
  unfold printTextResponse
  rw [h]

/-- C9: a `print_text` command whose payload is absent or has no text
is answered by a `print_response` with `success: false` that echoes the
command's `requestId` — not by the generic `error` message — and the
connection stays open, every later frame still receiving a response. -/
theorem claim_C9 (reqId : Option String) (p : Option ClientPayload)
    (printers : List PrinterInfo) (pr : Except String String)
    (pre post : List (Option ClientMsg × Except String String))
    (hbad : p = none ∨ ∃ pp, p = some pp ∧ pp.text = none) :
    (handleFrame printers pr (some ⟨"print_text", reqId, p⟩)).type =
        "print_response" ∧
    (handleFrame printers pr (some ⟨"print_text", reqId, p⟩)).requestId =
        reqId ∧
    (handleFrame printers pr (some ⟨"print_text", reqId, p⟩)).success =
        some false ∧
    (handleConnection (some AUTH_TOKEN) printers
        (pre ++ (some ⟨"print_text", reqId, p⟩, pr) :: post)).closedByServer =
      false ∧
    (handleConnection (some AUTH_TOKEN) printers
        (pre ++ (some ⟨"print_text", reqId, p⟩, pr) :: post)).sent.length =
      pre.length + post.length + 2 := by
  have hd : handleFrame printers pr (some ⟨"print_text", reqId, p⟩) =
      printTextResponse pr ⟨"print_text", reqId, p⟩ := rfl
  have hresp : (printTextResponse pr ⟨"print_text", reqId, p⟩).type =
      "print_response" ∧
      (printTextResponse pr ⟨"print_text", reqId, p⟩).requestId = reqId ∧
      (printTextResponse pr ⟨"print_text", reqId, p⟩).success =
        some false := by
    rcases hbad with rfl | ⟨pp, rfl, ht⟩
    · exact ⟨rfl, rfl, rfl⟩
    · rw [printTextResponse_of_textError
        "The first argument must be of type string or an instance of Buffer"
        (by simp [getTextArg, ht])]
      exact ⟨rfl, rfl, rfl⟩
  have hconn : handleConnection (some AUTH_TOKEN) printers
      (pre ++ (some ⟨"print_text", reqId, p⟩, pr) :: post) =
      ⟨connectedMsg :: (pre ++ (some ⟨"print_text", reqId, p⟩, pr) ::
        post).map (fun f => handleFrame printers f.2 f.1), false⟩ := by
    rw [handleConnection, if_neg (by simp)]
  refine ⟨hd ▸ hresp.1, hd ▸ hresp.2.1, hd ▸ hresp.2.2, ?_, ?_⟩
  · rw [hconn]
  · rw [hconn]
    simp [List.length_append, List.length_map]
    omega

/-- C9 witness: a `print_text` with no payload at all, followed by one
more (unparseable) frame, gets a correlated failure response and the
later frame is still answered. -/
theorem claim_C9_witness :
    ((none : Option ClientPayload) = none ∨
      ∃ pp, (none : Option ClientPayload) = some pp ∧ pp.text = none) ∧
    ((handleFrame [] (Except.ok "")
        (some ⟨"print_text", some "1", none⟩)).type = "print_response" ∧
      (handleFrame [] (Except.ok "")
        (some ⟨"print_text", some "1", none⟩)).requestId = some "1" ∧
      (handleFrame [] (Except.ok "")
        (some ⟨"print_text", some "1", none⟩)).success = some false ∧
      (handleConnection (some AUTH_TOKEN) []
        ([] ++ (some ⟨"print_text", some "1", none⟩, Except.ok "") ::
          [(none, Except.ok "")])).closedByServer = false ∧
      (handleConnection (some AUTH_TOKEN) []
        ([] ++ (some ⟨"print_text", some "1", none⟩, Except.ok "") ::
          [(none, Except.ok "")])).sent.length = 3) :=
  ⟨Or.inl rfl,
    claim_C9 (some "1") none [] (Except.ok "") [] [(none, Except.ok "")]
      (Or.inl rfl)⟩

/-! ## Claim C10 -/

/-- On code units below `0x80` the two encoders agree byte for byte. -/
theorem asciiEncode_eq_utf8Encode :
    ∀ t : List Nat, (∀ c ∈ t, c < 128) →
      asciiEncode t = utf8Encode t
  | [], _ => rfl
  | [u], h => by
    have hu : u < 128 := h u (by simp)
    have hh : isHighSurrogate u = false := by
      rw [isHighSurrogate]; simp; omega
    have hl : isLowSurrogate u = false := by
      rw [isLowSurrogate]; simp; omega
    rw [utf8Encode, utf8EncodeUnit, if_neg (by simp [hh, hl]),
      utf8EncodeScalar, if_pos hu]
    simp [asciiEncode]
    omega
  | u :: v :: rest, h => by
    have hu : u < 128 := h u (by simp)
    have hh : isHighSurrogate u = false := by
      rw [isHighSurrogate]; simp; omega
    have hl : isLowSurrogate u = false := by
      rw [isLowSurrogate]; simp; omega
    have ih := asciiEncode_eq_utf8Encode (v :: rest)
      (fun c hc => h c (by simp [hc]))
    rw [utf8Encode, hh, Bool.false_and, if_neg (by simp),
      utf8EncodeUnit, if_neg (by simp [hh, hl]), utf8EncodeScalar,
      if_pos hu, ← ih]
    simp [asciiEncode]
    omega

/-- C10: on texts made only of ASCII code units, the `'ascii'` revision
(`src/print-server.js`) and the `'utf8'` revision
(`src/unnamed/part_001`) of `buildBuffer` produce identical byte
sequences, for either drawer flag. -/
theorem claim_C10 (t : List Nat) (d : Bool) (h : ∀ c ∈ t, c < 128) :
    PrintServerJS.buildBuffer t d = PrintServerMac.buildBuffer t d := by
  rw [PrintServerJS.buildBuffer, PrintServerMac.buildBuffer,
    asciiEncode_eq_utf8Encode t h]

/-- C10 witness: the two revisions agree on the ASCII text `Hello` with
the drawer flag set. -/
theorem claim_C10_witness :
    (∀ c ∈ [72, 101, 108, 108, 111], c < 128) ∧
      PrintServerJS.buildBuffer [72, 101, 108, 108, 111] true =
        PrintServerMac.buildBuffer [72, 101, 108, 108, 111] true :=
  ⟨by decide, claim_C10 [72, 101, 108, 108, 111] true (by decide)⟩

end AaravPos
